import Mathlib

/-!
Verification of the vdjdb chunk-merging build script (src/build_db.py).

The script merges tab-separated chunk files into one table keyed by
record id, checks the merged table (duplicate content, per-row field
rules, complex-pairing consistency), exports it, runs an external CDR3
fixer, re-reads the fixer output, applies fixes, and writes the final
database file.  Every definition below is a shallow embedding of the
corresponding piece of the script; the external fixer is modelled as a
parameter (an arbitrary function from the exported table to its output
table), matching the treatment in the spec of it as an opaque collaborator.
-/

deriving instance DecidableEq for Except

namespace BuildDb

/-- The required column list of the script, in its declared order. -/
def required_columns : List String :=
  ["complex.id",
   "cdr3", "v.segm", "j.segm", "gene", "species",
   "mhc.a", "mhc.b", "mhc.type",
   "antigen", "antigen.gene", "antigen.species",
   "method", "reference", "reference.id"]

/-- Name of the index column (`record.id`). -/
def index_column : String := "record.id"

/-- One row of the database: the values of the fifteen required columns.
The record id is kept separately as the key of the row. -/
structure Row where
  complexId : String
  cdr3 : String
  vSegm : String
  jSegm : String
  gene : String
  species : String
  mhcA : String
  mhcB : String
  mhcType : String
  antigen : String
  antigenGene : String
  antigenSpecies : String
  method : String
  reference : String
  referenceId : String
deriving DecidableEq

/-- Column access by column name, as `row[col]` does in the script.
Only the fifteen required columns are addressable. -/
def getCol (r : Row) : String → String
  | "complex.id" => r.complexId
  | "cdr3" => r.cdr3
  | "v.segm" => r.vSegm
  | "j.segm" => r.jSegm
  | "gene" => r.gene
  | "species" => r.species
  | "mhc.a" => r.mhcA
  | "mhc.b" => r.mhcB
  | "mhc.type" => r.mhcType
  | "antigen" => r.antigen
  | "antigen.gene" => r.antigenGene
  | "antigen.species" => r.antigenSpecies
  | "method" => r.method
  | "reference" => r.reference
  | "reference.id" => r.referenceId
  | _ => ""

/-- The merged data frame: rows keyed by record id, in order. -/
abbrev Table : Type := List (String × Row)

/-- One chunk file: its file name, the name of its first (index) column,
the names of its value columns, and its rows. -/
structure Chunk where
  file : String
  indexName : String
  columns : List String
  rows : List (String × Row)
deriving DecidableEq

/-- Values of a list that have already occurred earlier in it (the
positions `duplicated()` marks), in order, with multiplicity. -/
def dupScan {α : Type} [DecidableEq α] : List α → List α → List α
  | [], _ => []
  | r :: rest, seen =>
    if r ∈ seen then r :: dupScan rest seen else dupScan rest (r :: seen)

/-- First occurrences of a list, skipping anything in `seen` (the
`unique()` step). -/
def uniqueKeep {α : Type} [DecidableEq α] : List α → List α → List α
  | [], _ => []
  | r :: rest, seen =>
    if r ∈ seen then uniqueKeep rest seen else r :: uniqueKeep rest (r :: seen)

/-- `index.get_duplicates()`: the distinct values occurring more than
once, in order of their first repeated occurrence. -/
def get_duplicates {α : Type} [DecidableEq α] (l : List α) : List α :=
  uniqueKeep (dupScan l []) []

/-- The diagnostic fields collected for an unresolved record:
`row[[fixed.cdr3, closest.v.id, closest.j.id, v.canonical, j.canonical,
v.fix.type, j.fix.type]]`. -/
structure FixDiag where
  fixedCdr3 : String
  closestVId : String
  closestJId : String
  vCanonical : Bool
  jCanonical : Bool
  vFixType : String
  jFixType : String
deriving DecidableEq

/-- The failure surfaced by each `error(...)` call site (the script
prints a message and exits non-zero), plus the uncaught exceptions the
script can raise. -/
inductive BuildError where
  | missingColumns (file : String) (cols : List String)
  | badIndexColumn (file : String)
  | duplicateKey (ids : List String)
  | duplicateContent (dups : List Row)
  | invalidRecord (bad : List (String × List String))
  | invalidComplex (reported : List (String × List String))
  | indexError
  | unresolvedSequences (items : List FixDiag)
deriving DecidableEq

/-- `[x for x in required_columns if x not in chunk.columns.values]`. -/
def missing_cols (c : Chunk) : List String :=
  required_columns.filter (fun x => ¬ c.columns.contains x)

/-- The two schema checks run on each chunk, in source order: missing
required columns first, then the index-column name. -/
def schemaCheck (c : Chunk) : Option BuildError :=
  if missing_cols c ≠ [] then some (BuildError.missingColumns c.file (missing_cols c))
  else if c.indexName ≠ index_column then some (BuildError.badIndexColumn c.file)
  else none

/-- The chunk-ingestion loop: for each chunk run the schema checks
(calling `error` aborts the run at once), then
`df.append(chunk, verify_integrity=True)`, which raises when the
resulting index has duplicate values. -/
def appendChunks : List Chunk → Table → Except BuildError Table
  | [], df => Except.ok df
  | c :: rest, df =>
    match schemaCheck c with
    | some e => Except.error e
    | none =>
      if ((df ++ c.rows).map Prod.fst).Nodup then
        appendChunks rest (df ++ c.rows)
      else
        Except.error (BuildError.duplicateKey (get_duplicates ((df ++ c.rows).map Prod.fst)))

/-- The whole merge phase, starting from the empty data frame. -/
def mergeChunks (cs : List Chunk) : Except BuildError Table :=
  appendChunks cs []

/-- Concatenation of all chunk row lists, in chunk order: the table the
merge produces when it succeeds. -/
def chunkRows (cs : List Chunk) : Table :=
  cs.foldr (fun c acc => c.rows ++ acc) []

/-- `df.set_index(required_columns).index.get_duplicates()` followed by
the emptiness test: `set_index` replaces the record-id index by the
composite of all required columns (dropping the record ids), so the
duplicates reported are composite row values. -/
def duplicatesCheck (t : Table) : Except BuildError Table :=
  let d := get_duplicates (t.map Prod.snd)
  if d = [] then Except.ok t else Except.error (BuildError.duplicateContent d)

/-- `^[ARNDCEQGHILKMFPSTWYV]+$` on a string without newlines. -/
def aaMatch (s : String) : Bool :=
  s ≠ "" && s.toList.all (fun c => c ∈ (['A', 'R', 'N', 'D', 'C', 'E', 'Q', 'G', 'H', 'I', 'L', 'K', 'M', 'F', 'P', 'S', 'T', 'W', 'Y', 'V'] : List Char))

/-- `^VDJDBR\d{8}$` on a string without newlines (ASCII digits). -/
def recordIdMatch (s : String) : Bool :=
  s.toList.take 6 == ['V', 'D', 'J', 'D', 'B', 'R'] &&
  (s.toList.drop 6).length == 8 && (s.toList.drop 6).all Char.isDigit

/-- `^VDJDBC\d{8}$` on a string without newlines (ASCII digits). -/
def complexIdMatch (s : String) : Bool :=
  s.toList.take 6 == ['V', 'D', 'J', 'D', 'B', 'C'] &&
  (s.toList.drop 6).length == 8 && (s.toList.drop 6).all Char.isDigit

def allowed_mhcs : List String := ["MHCI", "MHCII"]

def allowed_genes : List String := ["TRA", "TRB"]

def allowed_species : List String :=
  ["HomoSapiens", "MusMusculus", "RattusNorvegicus", "MacacaMulatta"]

/-- The per-row `messages` list of the record-validation loop, with the
checks in source order.  The three enum messages render the allowed list
without Python quoting. -/
def rowMessages (id : String) (r : Row) : List String :=
  (if recordIdMatch id then [] else ["Bad record identifier"]) ++
  (if complexIdMatch r.complexId then [] else ["Bad complex identifier"]) ++
  (if aaMatch r.cdr3 then [] else ["Bad CDR3 sequence"]) ++
  (if r.antigen ≠ "" && !aaMatch r.antigen then ["Bad antigen sequence"] else []) ++
  (if allowed_mhcs.contains r.mhcType then [] else ["MHC type should be in [MHCI, MHCII]"]) ++
  (if allowed_genes.contains r.gene then [] else ["TCR gene type should be in [TRA, TRB]"]) ++
  (if allowed_species.contains r.species then []
   else ["Species should be in [HomoSapiens, MusMusculus, RattusNorvegicus, MacacaMulatta]"])

/-- The `bad_records` mapping: record id to its violation list, for rows
with at least one violation, in row order. -/
def bad_records (t : Table) : List (String × List String) :=
  (t.map (fun p => (p.1, rowMessages p.1 p.2))).filter (fun q => q.2 ≠ [])

/-- The record-validation phase: fail once with the whole mapping if it
is non-empty. -/
def recordCheck (t : Table) : Except BuildError Table :=
  if bad_records t = [] then Except.ok t
  else Except.error (BuildError.invalidRecord (bad_records t))

/-- The consistency-column set compared inside a complex group. -/
def complex_match_cols : List String :=
  ["species",
   "mhc.a", "mhc.b", "mhc.type",
   "antigen", "antigen.gene", "antigen.species",
   "method", "reference", "reference.id"]

/-- Insert a string into a sorted list (ascending). -/
def insertAsc (x : String) : List String → List String
  | [] => [x]
  | y :: ys => if y < x then y :: insertAsc x ys else x :: y :: ys

/-- Insertion sort, ascending: `groupby` iterates group keys sorted. -/
def sortKeys : List String → List String
  | [] => []
  | x :: xs => insertAsc x (sortKeys xs)

/-- The group keys of the groupby on the complex-id column: distinct complex ids,
in ascending order. -/
def complexKeys (t : Table) : List String :=
  sortKeys (uniqueKeep (t.map (fun p => p.2.complexId)) [])

/-- The rows of one group, in table order. -/
def groupOf (t : Table) (k : String) : List (String × Row) :=
  t.filter (fun p => p.2.complexId == k)

/-- The `messages` list built for one non-sentinel group.  `none`
models the IndexError the loop raises on `rows[1]` when the group has
fewer than two rows. -/
def complexGroupMessages (g : List (String × Row)) : Option (List String) :=
  match g with
  | r0 :: r1 :: _ =>
    some ((if g.length ≠ 2 then ["Number of entries in complex should be 2"] else []) ++
      (let unmatched := complex_match_cols.filter (fun c => getCol r0.2 c ≠ getCol r1.2 c)
       if unmatched ≠ [] then
         ["The following columns are not matching within complex entries[" ++
          String.intercalate (", ") unmatched ++ "]"]
       else []))
  | _ => none

/-- The group loop: walk the group keys in order, skip the reserved
sentinel, accumulate `bad_complexes`, abort on the IndexError. -/
def complexFold (t : Table) : List String → List (String × List String) →
    Except Unit (List (String × List String))
  | [], acc => Except.ok acc
  | k :: rest, acc =>
    if k = "VDJDBC00000000" then complexFold t rest acc
    else
      match complexGroupMessages (groupOf t k) with
      | none => Except.error ()
      | some msgs =>
        if msgs = [] then complexFold t rest acc
        else complexFold t rest (acc ++ [(k, msgs)])

/-- The accumulated `bad_complexes` mapping, when the loop completes. -/
def bad_complexes (t : Table) : Except Unit (List (String × List String)) :=
  complexFold t (complexKeys t) []

/-- The complex-consistency phase.  Note the source reports
`str(bad_records)` — the record-validation mapping, already empty at
this point of the run — not `bad_complexes`, in its error message. -/
def complexCheck (t : Table) : Except BuildError Table :=
  match bad_complexes t with
  | Except.error () => Except.error BuildError.indexError
  | Except.ok bad =>
    if bad = [] then Except.ok t
    else Except.error (BuildError.invalidComplex (bad_records t))

/-- The default NA token list pandas applies when `keep_default_na` is
true (abbreviated to the plain-text members). -/
def default_na_tokens : List String :=
  ["", "N/A", "NA", "NULL", "NaN", "n/a", "nan", "null"]

/-- One cell as `pd.read_table` decodes it: `none` is a missing-value
marker (NaN), `some s` a kept string. -/
def parse_cell (keep_default_na : Bool) (na_values : List String) (s : String) :
    Option String :=
  if s ∈ (if keep_default_na then na_values ++ default_na_tokens else na_values)
  then none else some s

/-- Cell decoding at the chunk read site:
`na_values=[], keep_default_na=False`. -/
def read_table_cell (s : String) : Option String :=
  parse_cell false [] s

/-- One row of the fixer output: the carried-through required columns
plus the fixer fields. -/
structure FixRow where
  row : Row
  fixedCdr3 : String
  closestVId : String
  closestJId : String
  vCanonical : Bool
  jCanonical : Bool
  good : Bool
  vFixType : String
  jFixType : String
deriving DecidableEq

/-- The fixer output table, keyed by record id. -/
abbrev FixTable : Type := List (String × FixRow)

/-- The per-row resolvability test: good, or v.canonical and j.canonical. -/
def resolvable (f : FixRow) : Bool :=
  f.good || (f.vCanonical && f.jCanonical)

/-- The diagnostic-field selection appended for an unresolved record. -/
def diag (f : FixRow) : FixDiag :=
  ⟨f.fixedCdr3, f.closestVId, f.closestJId, f.vCanonical, f.jCanonical,
   f.vFixType, f.jFixType⟩

/-- The in-place fix of a resolvable row: cdr3, v.segm and j.segm are
overwritten with the fixer values. -/
def applyFix (f : FixRow) : Row :=
  { f.row with cdr3 := f.fixedCdr3, vSegm := f.closestVId, jSegm := f.closestJId }

/-- The `unfixed_cdr3` list: the diagnostics of every unresolvable row,
in row order. -/
def unfixed_cdr3 (ft : FixTable) : List FixDiag :=
  (ft.filter (fun p => !resolvable p.2)).map (fun p => diag p.2)

/-- The reconciliation phase over the re-read fixer output: error if any
record is unresolved (before the final file is written), else the table
with all fixes applied. -/
def reconcile (ft : FixTable) : Except BuildError Table :=
  if unfixed_cdr3 ft = [] then
    Except.ok (ft.map (fun p => (p.1, applyFix p.2)))
  else
    Except.error (BuildError.unresolvedSequences (unfixed_cdr3 ft))

/-- The whole pipeline.  The external fixer is a parameter taking the
exported raw table to its output table; the `check_call` never failing
corresponds to the fixer being a total function.  The returned table is
what `df[required_columns].to_csv` writes as the final database. -/
def pipeline (chunks : List Chunk) (fixer : Table → FixTable) :
    Except BuildError Table :=
  match mergeChunks chunks with
  | Except.error e => Except.error e
  | Except.ok df =>
    match duplicatesCheck df with
    | Except.error e => Except.error e
    | Except.ok df =>
      match recordCheck df with
      | Except.error e => Except.error e
      | Except.ok df =>
        match complexCheck df with
        | Except.error e => Except.error e
        | Except.ok df => reconcile (fixer df)

/-- The column values of a row that the fix never touches (everything
but cdr3, v.segm, j.segm). -/
def otherCols (r : Row) : List String :=
  [r.complexId, r.gene, r.species, r.mhcA, r.mhcB, r.mhcType, r.antigen,
   r.antigenGene, r.antigenSpecies, r.method, r.reference, r.referenceId]

/-- All fifteen required-column values of a row, in declared order. -/
def rowFields (r : Row) : List String :=
  [r.complexId, r.cdr3, r.vSegm, r.jSegm, r.gene, r.species, r.mhcA, r.mhcB,
   r.mhcType, r.antigen, r.antigenGene, r.antigenSpecies, r.method,
   r.reference, r.referenceId]

/-- Formalisation of the claim wording for the duplicate-content
diagnostic: the record ids of the rows whose composite content occurs
at least twice in the table. -/
def duplicateRecordIds_spec (t : Table) : List String :=
  (t.filter (fun p => 1 < (t.map Prod.snd).count p.2)).map Prod.fst

/-! ### Concrete fixtures used by witnesses and counterexamples -/

/-- A fully valid unpaired row (complex id is the reserved sentinel). -/
def exRow : Row :=
  { complexId := "VDJDBC00000000", cdr3 := "CASSL", vSegm := "TRBV9*01",
    jSegm := "TRBJ2-7*01", gene := "TRB", species := "HomoSapiens",
    mhcA := "HLA-A*02:01", mhcB := "B2M", mhcType := "MHCI",
    antigen := "ELAGIGILTV", antigenGene := "MLANA",
    antigenSpecies := "HomoSapiens", method := "tetramer",
    reference := "PMID:123", referenceId := "1" }

/-- A second valid row differing from `exRow` in content. -/
def exRow2 : Row :=
  { exRow with cdr3 := "CASSLG", antigen := "GILGFVFTL", antigenGene := "M" }

/-- A valid row carrying a non-sentinel complex id. -/
def exRowC (cid : String) : Row :=
  { exRow with complexId := cid }

/-- A schema-valid chunk with the given file name and rows. -/
def mkChunk (file : String) (rows : List (String × Row)) : Chunk :=
  { file := file, indexName := index_column, columns := required_columns,
    rows := rows }

/-- A fixer that marks every record good and keeps its sequence data:
`fixed.cdr3`, `closest.v.id` and `closest.j.id` echo the row. -/
def idealFixer (t : Table) : FixTable :=
  t.map (fun p =>
    (p.1,
     { row := p.2, fixedCdr3 := p.2.cdr3, closestVId := p.2.vSegm,
       closestJId := p.2.jSegm, vCanonical := true, jCanonical := true,
       good := true, vFixType := "no.fix", jFixType := "no.fix" }))

/-- Two single-row chunks with disjoint record ids but identical row
content: every row passes record and complex validation, yet the
duplicate-content check stops the pipeline. -/
def exDupChunks : List Chunk :=
  [mkChunk ("a.txt") [("VDJDBR00000001", exRow)],
   mkChunk ("b.txt") [("VDJDBR00000002", exRow)]]

/-- The merged table of `exDupChunks`. -/
def exDupTable : Table :=
  [("VDJDBR00000001", exRow), ("VDJDBR00000002", exRow)]

/-- A table whose only complex group is a singleton with a non-sentinel
complex id (otherwise fully valid). -/
def exSingletonTable : Table :=
  [("VDJDBR00000001", exRowC ("VDJDBC00000001"))]

/-- A table whose only complex group has three members with equal
consistency columns. -/
def exTripleTable : Table :=
  [("VDJDBR00000001", exRowC ("VDJDBC00000001")),
   ("VDJDBR00000002", exRowC ("VDJDBC00000001")),
   ("VDJDBR00000003", exRowC ("VDJDBC00000001"))]

/-- A chunk missing the `cdr3` column. -/
def exBadChunkA : Chunk :=
  { file := "a.txt", indexName := index_column,
    columns := required_columns.filter (fun x => x ≠ "cdr3"), rows := [] }

/-- A second chunk missing the `cdr3` column. -/
def exBadChunkB : Chunk :=
  { exBadChunkA with file := "b.txt" }

/-- A chunk that is doubly malformed: its index column is named `foo`
and it is missing the `cdr3` column. -/
def exDoubleBadChunk : Chunk :=
  { file := "c.txt", indexName := "foo",
    columns := required_columns.filter (fun x => x ≠ "cdr3"), rows := [] }

/-- Whether a merge outcome is the duplicate-key failure. -/
def isDuplicateKeyError : Except BuildError Table → Bool
  | Except.error (BuildError.duplicateKey _) => true
  | _ => false

/-- Whether a pipeline outcome produced a table at all. -/
def producesTable : Except BuildError Table → Bool
  | Except.ok _ => true
  | Except.error _ => false

/-- A fixer row the collaborator could not resolve:
`good=false, v.canonical=false, j.canonical=true`. -/
def exBadFixRow : FixRow :=
  { row := exRow, fixedCdr3 := "CASSL", closestVId := "TRBV9*01",
    closestJId := "TRBJ2-7*01", vCanonical := false, jCanonical := true,
    good := false, vFixType := "failed", jFixType := "no.fix" }

/-- A fixer output with one unresolvable record. -/
def exBadFixTable : FixTable := [("VDJDBR00000001", exBadFixRow)]

/-- A second duplicate-content table, on different ids and content. -/
def exDupTable2 : Table :=
  [("VDJDBR00000003", exRow2), ("VDJDBR00000004", exRow2)]

/-- A chunk defining record id `VDJDBR00000001`. -/
def exKeyChunkA : Chunk := mkChunk ("a.txt") [("VDJDBR00000001", exRow)]

/-- A second chunk defining the same record id `VDJDBR00000001`. -/
def exKeyChunkB : Chunk := mkChunk ("b.txt") [("VDJDBR00000001", exRow2)]

/-- A row failing the CDR3 alphabet rule (contains a digit). -/
def exBadRow : Row := { exRow with cdr3 := "CASSLX1" }

/-- A one-row table whose row fails record validation. -/
def exBadTable : Table := [("VDJDBR00000001", exBadRow)]

/-- A chunk whose only defect is its index column name `foo`. -/
def exBadIndexChunk : Chunk := { mkChunk ("d.txt") [] with indexName := "foo" }

/-- A fully valid two-chunk input with distinct ids and distinct rows. -/
def exGoodChunks : List Chunk :=
  [mkChunk ("a.txt") [("VDJDBR00000001", exRow)],
   mkChunk ("b.txt") [("VDJDBR00000002", exRow2)]]

/-! ### Helper lemmas -/

lemma mem_ite_nil_pos {c : Prop} [Decidable c] {m x : String} :
    (x ∈ if c then ([] : List String) else [m]) ↔ ¬ c ∧ x = m := by
  by_cases h : c <;> simp [h]

lemma mem_ite_nil_neg {c : Prop} [Decidable c] {m x : String} :
    (x ∈ if c then [m] else ([] : List String)) ↔ c ∧ x = m := by
  by_cases h : c <;> simp [h]

lemma mem_rowMessages_cdr3 (id : String) (r : Row) :
    "Bad CDR3 sequence" ∈ rowMessages id r ↔ aaMatch r.cdr3 = false := by
  simp [rowMessages, List.mem_append, mem_ite_nil_pos, mem_ite_nil_neg]

lemma mem_rowMessages_antigen (id : String) (r : Row) :
    "Bad antigen sequence" ∈ rowMessages id r ↔
      (r.antigen ≠ "" ∧ aaMatch r.antigen = false) := by
  simp [rowMessages, List.mem_append, mem_ite_nil_pos, mem_ite_nil_neg]

lemma mem_uniqueKeep {α : Type} [DecidableEq α] (l seen : List α) (x : α) :
    x ∈ uniqueKeep l seen ↔ x ∈ l ∧ x ∉ seen := by
  induction l generalizing seen with
  | nil => simp [uniqueKeep]
  | cons r rest ih =>
    by_cases h : r ∈ seen
    · rw [uniqueKeep, if_pos h, ih]
      by_cases hx : x = r
      · subst hx
        simp [h]
      · simp [List.mem_cons, hx]
    · rw [uniqueKeep, if_neg h]
      by_cases hx : x = r
      · subst hx
        simp [h]
      · simp [List.mem_cons, hx, ih]

lemma mem_dupScan {α : Type} [DecidableEq α] (l seen : List α) (x : α) :
    x ∈ dupScan l seen ↔ (x ∈ seen ∧ x ∈ l) ∨ 2 ≤ l.count x := by
  induction l generalizing seen with
  | nil => simp [dupScan]
  | cons r rest ih =>
    rw [dupScan]
    by_cases hx : x = r
    · subst hx
      by_cases h : x ∈ seen
      · simp [if_pos h, h, List.count_cons_self]
      · rw [if_neg h, ih, List.count_cons_self]
        have hcount : x ∈ rest ↔ 1 ≤ rest.count x := by
          constructor
          · intro hm
            exact List.count_pos_iff.mpr hm
          · intro hc
            exact List.count_pos_iff.mp hc
        simp only [List.mem_cons, true_or, and_true, h, false_and, false_or,
          true_and, hcount]
        omega
    · rw [List.count_cons_of_ne hx]
      by_cases h : r ∈ seen
      · rw [if_pos h]
        simp [List.mem_cons, hx, ih]
      · rw [if_neg h, ih]
        simp [List.mem_cons, hx]

lemma mem_get_duplicates {α : Type} [DecidableEq α] (l : List α) (x : α) :
    x ∈ get_duplicates l ↔ 2 ≤ l.count x := by
  simp [get_duplicates, mem_uniqueKeep, mem_dupScan]

lemma get_duplicates_eq_nil {α : Type} [DecidableEq α] (l : List α) :
    get_duplicates l = [] ↔ l.Nodup := by
  rw [List.eq_nil_iff_forall_not_mem, List.nodup_iff_count_le_one]
  constructor
  · intro h a
    have := h a
    rw [mem_get_duplicates] at this
    omega
  · intro h a
    rw [mem_get_duplicates]
    have := h a
    omega

lemma chunkRows_nil : chunkRows [] = [] := rfl

lemma chunkRows_cons (c : Chunk) (cs : List Chunk) :
    chunkRows (c :: cs) = c.rows ++ chunkRows cs := rfl

lemma chunkRows_append (a b : List Chunk) :
    chunkRows (a ++ b) = chunkRows a ++ chunkRows b := by
  induction a with
  | nil => simp [chunkRows_nil, chunkRows]
  | cons c cs ih => simp [chunkRows_cons, ih]

lemma chunkRows_perm {a b : List Chunk} (h : a.Perm b) :
    (chunkRows a).Perm (chunkRows b) := by
  induction h with
  | nil => exact List.Perm.refl _
  | cons c _ ih =>
    rw [chunkRows_cons, chunkRows_cons]
    exact ih.append_left _
  | swap x y l =>
    rw [chunkRows_cons, chunkRows_cons, chunkRows_cons, chunkRows_cons,
      ← List.append_assoc, ← List.append_assoc]
    exact List.Perm.append_right _ List.perm_append_comm
  | trans _ _ ih1 ih2 => exact ih1.trans ih2

/-- While all chunks pass the schema checks and no key collides, the
ingestion loop just accumulates their rows. -/
lemma appendChunks_progress (pre cs : List Chunk) (df : Table)
    (hs : ∀ c ∈ pre, schemaCheck c = none)
    (hnd : ((df ++ chunkRows pre).map Prod.fst).Nodup) :
    appendChunks (pre ++ cs) df = appendChunks cs (df ++ chunkRows pre) := by
  induction pre generalizing df with
  | nil => simp [chunkRows_nil]
  | cons c pre ih =>
    have hc : schemaCheck c = none := hs c (List.mem_cons_self c pre)
    have hnd1 : ((df ++ c.rows).map Prod.fst).Nodup := by
      refine List.Nodup.sublist ?_ hnd
      rw [chunkRows_cons, ← List.append_assoc]
      exact (List.sublist_append_left _ _).map Prod.fst
    rw [List.cons_append, appendChunks, hc]
    simp only [if_pos hnd1]
    rw [ih (df ++ c.rows) (fun c2 h2 => hs c2 (List.mem_cons_of_mem c h2))]
    · rw [List.append_assoc, ← chunkRows_cons]
    · rw [List.append_assoc, ← chunkRows_cons]
      exact hnd

/-- When every chunk passes the schema checks and the accumulated keys
collide somewhere, the ingestion loop raises the duplicate-key error. -/
lemma appendChunks_dup (cs : List Chunk) (df : Table)
    (hs : ∀ c ∈ cs, schemaCheck c = none)
    (hnd0 : (df.map Prod.fst).Nodup)
    (hdup : ¬ ((df ++ chunkRows cs).map Prod.fst).Nodup) :
    ∃ ids, appendChunks cs df = Except.error (BuildError.duplicateKey ids) := by
  induction cs generalizing df with
  | nil =>
    exfalso
    apply hdup
    simpa [chunkRows_nil] using hnd0
  | cons c cs ih =>
    have hc : schemaCheck c = none := hs c (List.mem_cons_self c cs)
    rw [appendChunks, hc]
    by_cases h1 : ((df ++ c.rows).map Prod.fst).Nodup
    · simp only [if_pos h1]
      refine ih (df ++ c.rows) (fun c2 h2 => hs c2 (List.mem_cons_of_mem c h2)) h1 ?_
      intro hcontra
      apply hdup
      rw [chunkRows_cons, ← List.append_assoc]
      exact hcontra
    · simp only [if_neg h1]
      exact ⟨_, rfl⟩

/-- When every chunk passes the schema checks and no record id repeats,
the merge returns the concatenation of all chunk rows. -/
lemma mergeChunks_ok (cs : List Chunk)
    (hs : ∀ c ∈ cs, schemaCheck c = none)
    (hnd : ((chunkRows cs).map Prod.fst).Nodup) :
    mergeChunks cs = Except.ok (chunkRows cs) := by
  have h := appendChunks_progress cs [] [] hs (by simpa using hnd)
  simpa [mergeChunks, appendChunks] using h

/-- Shared helper: one unresolvable row makes reconciliation fail with
the unresolved-sequences error, carrying the diagnostics of that row. -/
lemma reconcile_unresolved (ft : FixTable) (p : String × FixRow)
    (hp : p ∈ ft) (hbad : resolvable p.2 = false) :
    reconcile ft =
      Except.error (BuildError.unresolvedSequences (unfixed_cdr3 ft)) ∧
    diag p.2 ∈ unfixed_cdr3 ft ∧
    ∀ out, reconcile ft ≠ Except.ok out := by
  have hmem : diag p.2 ∈ unfixed_cdr3 ft := by
    rw [unfixed_cdr3]
    refine List.mem_map.mpr ⟨p, ?_, rfl⟩
    exact List.mem_filter.mpr ⟨hp, by simp [hbad]⟩
  have hne : unfixed_cdr3 ft ≠ [] := by
    intro h
    rw [h] at hmem
    exact absurd hmem (List.not_mem_nil _)
  refine ⟨?_, hmem, ?_⟩
  · rw [reconcile, if_neg hne]
  · intro out hout
    rw [reconcile, if_neg hne] at hout
    exact Except.noConfusion hout

/-! ### Claim theorems -/

/-- Claim C2 (code bug): the complex-consistency loop does not examine
every non-sentinel group safely.  On a singleton group it raises an
IndexError instead of recording the size violation, and when it does
fail it reports the (empty) record-validation mapping rather than the
accumulated complex-violation mapping: on a three-member group the
accumulated mapping is non-empty, yet the reported payload is empty. -/
theorem C2_complex_check_bug :
    complexCheck exSingletonTable = Except.error BuildError.indexError ∧
    bad_complexes exTripleTable =
      Except.ok [("VDJDBC00000001", ["Number of entries in complex should be 2"])] ∧
    complexCheck exTripleTable = Except.error (BuildError.invalidComplex []) := by
  decide

/-- Claim C3 (counterexample): on a table with two identically-valued
rows under distinct record ids, the duplicate-content check fails, but
its diagnostic is the duplicated composite value — the record ids named
by the claim do not occur anywhere in it. -/
theorem C3_counterexample :
    duplicatesCheck exDupTable = Except.error (BuildError.duplicateContent [exRow]) ∧
    duplicateRecordIds_spec exDupTable = ["VDJDBR00000001", "VDJDBR00000002"] ∧
    ¬ "VDJDBR00000001" ∈ rowFields exRow ∧
    ¬ "VDJDBR00000002" ∈ rowFields exRow := by
  decide

/-- Claim C3 (amended): the duplicate-content check passes a table
through unchanged exactly when no composite value repeats; otherwise it
fails, and its diagnostic is the non-empty list of the composite values
occurring at least twice (not the record ids). -/
theorem C3_duplicate_content (t : Table) :
    (duplicatesCheck t = Except.ok t ↔ (t.map Prod.snd).Nodup) ∧
    (¬ (t.map Prod.snd).Nodup →
      duplicatesCheck t =
        Except.error (BuildError.duplicateContent (get_duplicates (t.map Prod.snd))) ∧
      get_duplicates (t.map Prod.snd) ≠ [] ∧
      ∀ r, r ∈ get_duplicates (t.map Prod.snd) ↔ 2 ≤ (t.map Prod.snd).count r) := by
  constructor
  · constructor
    · intro h
      by_cases hd : get_duplicates (t.map Prod.snd) = []
      · exact (get_duplicates_eq_nil _).mp hd
      · rw [duplicatesCheck] at h
        simp only [if_neg hd] at h
        exact Except.noConfusion h
    · intro h
      rw [duplicatesCheck]
      simp only [if_pos ((get_duplicates_eq_nil _).mpr h)]
  · intro h
    have hd : get_duplicates (t.map Prod.snd) ≠ [] := by
      intro hc
      exact h ((get_duplicates_eq_nil _).mp hc)
    refine ⟨?_, hd, fun r => mem_get_duplicates _ r⟩
    rw [duplicatesCheck]
    simp only [if_neg hd]

/-- Witness for the amended C3 at a concrete duplicated table. -/
theorem C3_witness :
    duplicatesCheck exDupTable2 =
      Except.error
        (BuildError.duplicateContent (get_duplicates (exDupTable2.map Prod.snd))) ∧
    get_duplicates (exDupTable2.map Prod.snd) ≠ [] := by
  have h := (C3_duplicate_content exDupTable2).2 (by decide)
  exact ⟨h.1, h.2.1⟩

/-- Claim C4: a fixer output with at least one unresolvable record makes
the run fail with the unresolved-sequences diagnostic, which carries the
collected diagnostic fields of every unresolved record, and no final
table is produced. -/
theorem C4_unresolved_aborts (ft : FixTable) (p : String × FixRow)
    (hp : p ∈ ft) (hbad : resolvable p.2 = false) :
    reconcile ft =
      Except.error (BuildError.unresolvedSequences (unfixed_cdr3 ft)) ∧
    diag p.2 ∈ unfixed_cdr3 ft ∧
    ∀ out, reconcile ft ≠ Except.ok out :=
  reconcile_unresolved ft p hp hbad

/-- Witness for C4 at a concrete one-row unresolvable fixer output. -/
theorem C4_witness :
    reconcile exBadFixTable =
      Except.error (BuildError.unresolvedSequences (unfixed_cdr3 exBadFixTable)) ∧
    diag exBadFixRow ∈ unfixed_cdr3 exBadFixTable := by
  have h := C4_unresolved_aborts exBadFixTable ("VDJDBR00000001", exBadFixRow)
    (by decide) (by decide)
  exact ⟨h.1, h.2.1⟩

/-- Claim C5: a fixer row is treated as resolvable exactly when `good`
holds or both canonical flags hold; resolvable rows get cdr3, v.segm
and j.segm overwritten with the fixer values, and a row with
`good=false, v.canonical=false, j.canonical=true` makes the whole run
fail however the other rows look. -/
theorem C5_resolvability (ft : FixTable) (f : FixRow) :
    (resolvable f = true ↔
      (f.good = true ∨ (f.vCanonical = true ∧ f.jCanonical = true))) ∧
    ((applyFix f).cdr3 = f.fixedCdr3 ∧ (applyFix f).vSegm = f.closestVId ∧
      (applyFix f).jSegm = f.closestJId) ∧
    ((∀ p ∈ ft, resolvable p.2 = true) →
      reconcile ft = Except.ok (ft.map (fun p => (p.1, applyFix p.2)))) ∧
    (∀ id, (id, f) ∈ ft → f.good = false → f.vCanonical = false →
      f.jCanonical = true →
      reconcile ft =
        Except.error (BuildError.unresolvedSequences (unfixed_cdr3 ft)) ∧
      diag f ∈ unfixed_cdr3 ft) := by
  refine ⟨?_, ⟨rfl, rfl, rfl⟩, ?_, ?_⟩
  · simp [resolvable]
  · intro hall
    have hnil : unfixed_cdr3 ft = [] := by
      rw [unfixed_cdr3]
      have : ft.filter (fun p => !resolvable p.2) = [] := by
        rw [List.filter_eq_nil_iff]
        intro p hp
        simp [hall p hp]
      rw [this, List.map_nil]
    rw [reconcile, if_pos hnil]
  · intro id hmem hg hv hj
    have hbad : resolvable f = false := by
      rw [resolvable, hg, hv]
      rfl
    have h := reconcile_unresolved ft (id, f) hmem hbad
    exact ⟨h.1, h.2.1⟩

/-- Witness for C5 at a concrete fixer output. -/
theorem C5_witness :
    reconcile exBadFixTable =
      Except.error (BuildError.unresolvedSequences (unfixed_cdr3 exBadFixTable)) ∧
    diag exBadFixRow ∈ unfixed_cdr3 exBadFixTable := by
  have h := (C5_resolvability exBadFixTable exBadFixRow).2.2.2
    ("VDJDBR00000001") (by decide) rfl rfl rfl
  exact h

/-- Claim C6: record validation maps every record id to the complete
violation list of its row, keeps only rows with at least one violation,
fails once exactly when that mapping is non-empty (no early stop), and
on cdr3 `CASSLX1` reports the bad-CDR3 message while `CASSL` passes
that check. -/
theorem C6_record_validation (t : Table) (id : String) (r : Row) :
    (recordCheck t = Except.ok t ↔ bad_records t = []) ∧
    (bad_records t ≠ [] →
      recordCheck t = Except.error (BuildError.invalidRecord (bad_records t))) ∧
    ((id, r) ∈ t → rowMessages id r ≠ [] →
      (id, rowMessages id r) ∈ bad_records t) ∧
    (r.cdr3 = "CASSLX1" → "Bad CDR3 sequence" ∈ rowMessages id r) ∧
    (r.cdr3 = "CASSL" → ¬ "Bad CDR3 sequence" ∈ rowMessages id r) := by
  refine ⟨⟨?_, ?_⟩, ?_, ?_, ?_, ?_⟩
  · intro h
    by_cases hb : bad_records t = []
    · exact hb
    · rw [recordCheck, if_neg hb] at h
      exact Except.noConfusion h
  · intro h
    rw [recordCheck, if_pos h]
  · intro h
    rw [recordCheck, if_neg h]
  · intro hmem hne
    rw [bad_records]
    refine List.mem_filter.mpr ⟨?_, by simpa using hne⟩
    exact List.mem_map.mpr ⟨(id, r), hmem, rfl⟩
  · intro h
    rw [mem_rowMessages_cdr3, h]
    decide
  · intro h
    rw [mem_rowMessages_cdr3, h]
    decide

/-- Witness for C6 at a one-row table with a digit in the cdr3. -/
theorem C6_witness :
    recordCheck exBadTable =
      Except.error (BuildError.invalidRecord (bad_records exBadTable)) ∧
    ("VDJDBR00000001", rowMessages ("VDJDBR00000001") exBadRow) ∈
      bad_records exBadTable ∧
    "Bad CDR3 sequence" ∈ rowMessages ("VDJDBR00000001") exBadRow := by
  have h := C6_record_validation exBadTable ("VDJDBR00000001") exBadRow
  exact ⟨h.2.1 (by decide), h.2.2.1 (by decide) (by decide), h.2.2.2.1 rfl⟩

/-- Claim C8: with the chunk-read settings (`na_values=[]`,
`keep_default_na=False`) every cell — the empty one included — is kept
verbatim, never turned into a missing-value marker (under the default
settings the empty cell would be); and the bad-antigen message is
produced exactly for a non-empty antigen outside the amino-acid
alphabet. -/
theorem C8_antigen_exemption (s id : String) (r : Row) :
    read_table_cell s = some s ∧
    read_table_cell ("") = some ("") ∧
    parse_cell true [] ("") = none ∧
    parse_cell true [] ("NA") = none ∧
    ("Bad antigen sequence" ∈ rowMessages id r ↔
      (r.antigen ≠ "" ∧ aaMatch r.antigen = false)) := by
  refine ⟨?_, by decide, by decide, by decide, mem_rowMessages_antigen id r⟩
  rw [read_table_cell, parse_cell]
  simp

/-- Witness for C8 at a concrete cell and row. -/
theorem C8_witness :
    read_table_cell ("GILGFVFTL") = some ("GILGFVFTL") ∧
    ("Bad antigen sequence" ∈ rowMessages ("VDJDBR00000001") exRow ↔
      (exRow.antigen ≠ "" ∧ aaMatch exRow.antigen = false)) := by
  have h := C8_antigen_exemption ("GILGFVFTL") ("VDJDBR00000001") exRow
  exact ⟨h.1, h.2.2.2.2⟩

/-- Claim C7 (counterexample): with two chunks that each have a schema
error, the run reports only the error of the first chunk — the error
of the second chunk is not accumulated into the failure. -/
theorem C7_counterexample :
    schemaCheck exBadChunkA = some (BuildError.missingColumns ("a.txt") ["cdr3"]) ∧
    schemaCheck exBadChunkB = some (BuildError.missingColumns ("b.txt") ["cdr3"]) ∧
    mergeChunks [exBadChunkA, exBadChunkB] =
      Except.error (BuildError.missingColumns ("a.txt") ["cdr3"]) := by
  decide

/-- Claim C7 (amended): schema errors are not accumulated across
chunks; the ingestion phase aborts with the error of the first chunk
that fails the schema checks. -/
theorem C7_first_bad_chunk (pre : List Chunk) (c : Chunk)
    (rest : List Chunk) (e : BuildError)
    (hpre : ∀ c2 ∈ pre, schemaCheck c2 = none)
    (hnd : ((chunkRows pre).map Prod.fst).Nodup)
    (he : schemaCheck c = some e) :
    mergeChunks (pre ++ c :: rest) = Except.error e := by
  rw [mergeChunks, appendChunks_progress pre (c :: rest) [] hpre
    (by simpa using hnd)]
  rw [appendChunks, he]

/-- Witness for the amended C7. -/
theorem C7_witness :
    mergeChunks [exKeyChunkA, exBadChunkB, exKeyChunkB] =
      Except.error (BuildError.missingColumns ("b.txt") ["cdr3"]) :=
  C7_first_bad_chunk [exKeyChunkA] exBadChunkB [exKeyChunkB] _
    (by decide) (by decide) (by decide)

/-- Claim C10 (counterexample): on a chunk whose index column is named
`foo` and which is also missing a required column, the run fails with
the missing-columns diagnostic, not the bad-index-column one the claim
requires for every wrongly named index. -/
theorem C10_counterexample :
    exDoubleBadChunk.indexName ≠ index_column ∧
    schemaCheck exDoubleBadChunk =
      some (BuildError.missingColumns ("c.txt") ["cdr3"]) ∧
    ¬ schemaCheck exDoubleBadChunk = some (BuildError.badIndexColumn ("c.txt")) ∧
    mergeChunks [exDoubleBadChunk] =
      Except.error (BuildError.missingColumns ("c.txt") ["cdr3"]) := by
  decide

/-- Claim C10 (amended): a chunk missing required columns fails with
the missing-columns diagnostic naming the file and the missing list; a
chunk with a wrong index-column name and no missing column fails with
the bad-index-column diagnostic; either way a chunk with a schema error
is rejected before any merging. -/
theorem C10_schema_checks (c : Chunk) (e : BuildError) (rest : List Chunk) :
    (missing_cols c ≠ [] →
      schemaCheck c = some (BuildError.missingColumns c.file (missing_cols c))) ∧
    (missing_cols c = [] → c.indexName ≠ index_column →
      schemaCheck c = some (BuildError.badIndexColumn c.file)) ∧
    (schemaCheck c = some e →
      mergeChunks (c :: rest) = Except.error e) := by
  refine ⟨?_, ?_, ?_⟩
  · intro h
    rw [schemaCheck, if_pos h]
  · intro h1 h2
    rw [schemaCheck, if_neg (by simp [h1]), if_pos h2]
  · intro h
    rw [mergeChunks, appendChunks, h]

/-- Witness for the amended C10: a chunk whose only defect is the index
name `foo` is rejected with the bad-index-column diagnostic. -/
theorem C10_witness :
    schemaCheck exBadIndexChunk = some (BuildError.badIndexColumn ("d.txt")) ∧
    mergeChunks [exBadIndexChunk] =
      Except.error (BuildError.badIndexColumn ("d.txt")) := by
  have h := C10_schema_checks exBadIndexChunk
    (BuildError.badIndexColumn ("d.txt")) []
  have h1 := h.2.1 (by decide) (by decide)
  exact ⟨h1, h.2.2 h1⟩

/-- Claim C9: whenever two distinct chunks define the same record id
(all chunks being schema-valid), the merge fails with the duplicate-key
error and produces no merged table, and it does so for every processing
order of the chunks. -/
theorem C9_duplicate_key (chunks : List Chunk) (x : String)
    (hs : ∀ c ∈ chunks, schemaCheck c = none)
    (hsplit : ∃ pre c1 mid c2 post,
      chunks = pre ++ c1 :: (mid ++ c2 :: post) ∧
      x ∈ c1.rows.map Prod.fst ∧ x ∈ c2.rows.map Prod.fst)
    (cs2 : List Chunk) (hperm : chunks.Perm cs2) :
    isDuplicateKeyError (mergeChunks cs2) = true ∧
    producesTable (mergeChunks cs2) = false := by
  obtain ⟨pre, c1, mid, c2, post, heq, hx1, hx2⟩ := hsplit
  have hcount : 2 ≤ ((chunkRows chunks).map Prod.fst).count x := by
    subst heq
    rw [chunkRows_append, chunkRows_cons, chunkRows_append, chunkRows_cons]
    simp only [List.map_append, List.count_append]
    have h1 : 0 < (c1.rows.map Prod.fst).count x := List.count_pos_iff.mpr hx1
    have h2 : 0 < (c2.rows.map Prod.fst).count x := List.count_pos_iff.mpr hx2
    omega
  have hdup : ¬ ((chunkRows chunks).map Prod.fst).Nodup := by
    intro hnd
    have := List.nodup_iff_count_le_one.mp hnd x
    omega
  have hdup2 : ¬ ((chunkRows cs2).map Prod.fst).Nodup := by
    intro hnd
    exact hdup (((chunkRows_perm hperm).map Prod.fst).nodup_iff.mpr hnd)
  have hs2 : ∀ c ∈ cs2, schemaCheck c = none :=
    fun c hc => hs c (hperm.mem_iff.mpr hc)
  obtain ⟨ids, hmerge⟩ :=
    appendChunks_dup cs2 [] hs2 (by simp) (by simpa using hdup2)
  rw [mergeChunks, hmerge]
  exact ⟨rfl, rfl⟩

/-- Witness for C9: the colliding pair fails in the swapped order too. -/
theorem C9_witness :
    isDuplicateKeyError (mergeChunks [exKeyChunkB, exKeyChunkA]) = true ∧
    producesTable (mergeChunks [exKeyChunkB, exKeyChunkA]) = false :=
  C9_duplicate_key [exKeyChunkA, exKeyChunkB] ("VDJDBR00000001")
    (by decide)
    ⟨[], exKeyChunkA, [], exKeyChunkB, [], rfl, by decide, by decide⟩
    [exKeyChunkB, exKeyChunkA]
    (List.Perm.swap exKeyChunkB exKeyChunkA [])

/-- Claim C1 (counterexample): a chunk set with pairwise-disjoint
record ids whose rows all pass record and complex validation on which
the pipeline nevertheless fails (duplicate content), even under a fixer
that resolves and preserves everything — so the pipeline does not
complete on every such input. -/
theorem C1_counterexample :
    schemaCheck (mkChunk ("a.txt") [("VDJDBR00000001", exRow)]) = none ∧
    schemaCheck (mkChunk ("b.txt") [("VDJDBR00000002", exRow)]) = none ∧
    ((chunkRows exDupChunks).map Prod.fst).Nodup ∧
    bad_records (chunkRows exDupChunks) = [] ∧
    complexCheck (chunkRows exDupChunks) = Except.ok (chunkRows exDupChunks) ∧
    pipeline exDupChunks idealFixer =
      Except.error (BuildError.duplicateContent [exRow]) := by
  decide

/-- Claim C1 (amended): for schema-valid chunks with pairwise-distinct
record ids whose rows pass record and complex validation, with no two
rows equal on all required columns, and with a fixer output that is
keyed by exactly the merged record ids (carrying the merged rows) and
marks every record resolvable, the pipeline completes; the final table
has exactly the merged record ids (no drop, no duplication, count
preserved), its rows are the input rows on every column the fix does
not touch, and cdr3, v.segm, j.segm come from the fixer fields. -/
theorem C1_pipeline_preserves_rows (chunks : List Chunk)
    (fixer : Table → FixTable)
    (hs : ∀ c ∈ chunks, schemaCheck c = none)
    (hnd : ((chunkRows chunks).map Prod.fst).Nodup)
    (hrec : bad_records (chunkRows chunks) = [])
    (hcpx : complexCheck (chunkRows chunks) = Except.ok (chunkRows chunks))
    (hdupc : ((chunkRows chunks).map Prod.snd).Nodup)
    (hkeys : (fixer (chunkRows chunks)).map (fun p => (p.1, p.2.row)) =
      chunkRows chunks)
    (hres : ∀ p ∈ fixer (chunkRows chunks), resolvable p.2 = true) :
    pipeline chunks fixer =
      Except.ok ((fixer (chunkRows chunks)).map (fun p => (p.1, applyFix p.2))) ∧
    ((fixer (chunkRows chunks)).map (fun p => (p.1, applyFix p.2))).map Prod.fst =
      (chunkRows chunks).map Prod.fst ∧
    ((fixer (chunkRows chunks)).map (fun p => (p.1, applyFix p.2))).length =
      (chunkRows chunks).length ∧
    ((fixer (chunkRows chunks)).map (fun p => (p.1, applyFix p.2))).map
        (fun p => otherCols p.2) =
      (chunkRows chunks).map (fun p => otherCols p.2) ∧
    ((fixer (chunkRows chunks)).map (fun p => (p.1, applyFix p.2))).map
        (fun p => p.2.cdr3) =
      (fixer (chunkRows chunks)).map (fun p => p.2.fixedCdr3) := by
  have hmerge : mergeChunks chunks = Except.ok (chunkRows chunks) :=
    mergeChunks_ok chunks hs hnd
  have hdup : duplicatesCheck (chunkRows chunks) = Except.ok (chunkRows chunks) := by
    rw [duplicatesCheck]
    simp only [if_pos ((get_duplicates_eq_nil _).mpr hdupc)]
  have hrc : recordCheck (chunkRows chunks) = Except.ok (chunkRows chunks) := by
    rw [recordCheck, if_pos hrec]
  have hunres : unfixed_cdr3 (fixer (chunkRows chunks)) = [] := by
    rw [unfixed_cdr3]
    have hf : (fixer (chunkRows chunks)).filter (fun p => !resolvable p.2) = [] := by
      rw [List.filter_eq_nil_iff]
      intro p hp
      simp [hres p hp]
    rw [hf, List.map_nil]
  have hrecon : reconcile (fixer (chunkRows chunks)) =
      Except.ok ((fixer (chunkRows chunks)).map (fun p => (p.1, applyFix p.2))) := by
    rw [reconcile, if_pos hunres]
  refine ⟨?_, ?_, ?_, ?_, ?_⟩
  · rw [pipeline, hmerge]
    simp only []
    rw [hdup]
    simp only []
    rw [hrc]
    simp only []
    rw [hcpx]
    exact hrecon
  · have h1 := congrArg (List.map Prod.fst) hkeys
    rw [List.map_map] at h1
    rw [List.map_map]
    exact h1
  · have h1 := congrArg List.length hkeys
    rw [List.length_map] at h1
    rw [List.length_map]
    exact h1
  · have h1 := congrArg (List.map (fun p : String × Row => otherCols p.2)) hkeys
    rw [List.map_map] at h1
    rw [List.map_map]
    exact h1
  · rw [List.map_map]
    rfl

/-- Witness for the amended C1 at a concrete valid two-chunk input. -/
theorem C1_witness :
    pipeline exGoodChunks idealFixer =
      Except.ok ((idealFixer (chunkRows exGoodChunks)).map
        (fun p => (p.1, applyFix p.2))) ∧
    ((idealFixer (chunkRows exGoodChunks)).map
        (fun p => (p.1, applyFix p.2))).map Prod.fst =
      (chunkRows exGoodChunks).map Prod.fst := by
  have h := C1_pipeline_preserves_rows exGoodChunks idealFixer
    (by decide) (by decide) (by decide) (by decide) (by decide)
    (by decide) (by decide)
  exact ⟨h.1, h.2.1⟩

end BuildDb
